import Mathlib

/-!
Shallow embedding of `src/sms_webhook/__init__.py` (burn-ban SMS webhook).

The module keeps a cached copy of a county burn-ban table
(`baixar_tabela_oficial`), persisted as a semicolon-separated CSV file,
resolves a ZIP code to a county name (`zip_to_county`), looks the county up
in the table (`verificar_condado_burnban`), and answers an SMS request
(`main`), forwarding the outcome to a Power Automate sink
(`enviar_para_power_automate`).

Modelling conventions:
- Python exceptions are modelled with `Except`: a value `.error e` is a
  raised, uncaught exception leaving the modelled function; `try/except`
  blocks appear as explicit `match`es on the inner computation.
- External calls (HTTP fetch, geocoding, file persistence, notification
  POST) are parameters of the modelled functions: each call site receives
  the result the outside world would have produced (success value or
  raised exception).
- `pandas.read_csv` cells are `Option String`: `none` is a missing value
  (`NaN`).  By pandas defaults an empty CSV field, and any field equal to
  one of the standard NA tokens, reads back as `NaN`; numeric dtype
  inference is out of scope (all claims concern string-valued cells).
- Python `str.upper`/`str.strip` are modelled by `String.toUpper` /
  `String.trim` (ASCII data throughout the claims).
- Wall-clock times (`time.time()`) are `Int` seconds.
-/

namespace BurnBan

/-- A pandas cell as produced by `pd.read_csv`: `none` is `NaN`. -/
abbrev Cell := Option String

/-! ### Python string primitives

Modelled on `List Char` so that every definition reduces in the kernel
(`String.toUpper`, `String.trim` and `String.replace` from core are
compiled by well-founded recursion and do not). -/

/-- Python `str.upper()` (ASCII data throughout this module). -/
def pyUpper (s : String) : String := String.mk (s.data.map Char.toUpper)

/-- Drop whitespace from both ends of a character list. -/
def pyStripChars (l : List Char) : List Char :=
  ((l.dropWhile Char.isWhitespace).reverse.dropWhile Char.isWhitespace).reverse

/-- Python `str.strip()` with no argument. -/
def pyStrip (s : String) : String := String.mk (pyStripChars s.data)

/-- Replace every non-overlapping occurrence of `pat` left to right, as
Python `str.replace`.  Each step consumes at least one character, so
`fuel = length` suffices. -/
def replaceFuel (pat rep : List Char) : Nat → List Char → List Char
  | 0, l => l
  | _, [] => []
  | fuel + 1, c :: cs =>
    if pat.isPrefixOf (c :: cs) ∧ pat ≠ [] then
      rep ++ replaceFuel pat rep fuel ((c :: cs).drop pat.length)
    else c :: replaceFuel pat rep fuel cs

/-- Python `s.replace(pat, rep)`. -/
def pyReplace (s pat rep : String) : String :=
  String.mk (replaceFuel pat.data rep.data s.data.length s.data)

/-- One row appended to `records` in `baixar_tabela_oficial` (source
lines 82-87): all four values as they are written to the CSV file. -/
structure CountyRecord where
  county : String
  burnBan : String
  date : String
  countyId : String
  deriving Repr, DecidableEq

/-- The `attributes` object of one feature of the MapServer JSON response
(source lines 68-70): `none` means the key is absent.  `StartDate` is a
milliseconds-since-epoch integer when present. -/
structure Attributes where
  county : Option String
  burnBan : Option String
  startDate : Option Int
  countyId : Option String
  deriving Repr, DecidableEq

/-! ### Date conversion: `pd.to_datetime(ms, unit="ms").strftime("%m/%d/%Y")` -/

/-- Two-digit zero padding, as `%m` / `%d` in `strftime`. -/
def pad2 (n : Nat) : String :=
  if n < 10 then "0" ++ toString n else toString n

/-- Four-digit zero padding of a natural number. -/
def padNat4 (n : Nat) : String :=
  if n < 10 then "000" ++ toString n
  else if n < 100 then "00" ++ toString n
  else if n < 1000 then "0" ++ toString n
  else toString n

/-- Four-digit zero padding for the year, as `%Y` in `strftime`. -/
def pad4 (y : Int) : String :=
  if y < 0 then "-" ++ padNat4 (-y).toNat else padNat4 y.toNat

/-- Civil date (year, month, day) from days since the Unix epoch
(Gregorian calendar, Howard Hinnant's `civil_from_days` algorithm). -/
def civilFromDays (z0 : Int) : Int × Nat × Nat :=
  let z := z0 + 719468
  let era : Int := Int.fdiv z 146097
  let doe : Nat := (z - era * 146097).toNat
  let yoe : Nat := (doe - doe / 1460 + doe / 36524 - doe / 146096) / 365
  let y : Int := (yoe : Int) + era * 400
  let doy : Nat := doe - (365 * yoe + yoe / 4 - yoe / 100)
  let mp : Nat := (5 * doy + 2) / 153
  let d : Nat := doy - (153 * mp + 2) / 5 + 1
  let m : Nat := if mp < 10 then mp + 3 else mp - 9
  (if m ≤ 2 then y + 1 else y, m, d)

/-- `pandas.Timestamp` stores nanoseconds in a signed 64-bit integer;
a millisecond value outside this range raises `OutOfBoundsDatetime`. -/
def nsInRange (ms : Int) : Prop :=
  -(2 ^ 63) ≤ ms * 1000000 ∧ ms * 1000000 ≤ 2 ^ 63 - 1

instance (ms : Int) : Decidable (nsInRange ms) := by
  unfold nsInRange; infer_instance

/-- `pd.to_datetime(ms, unit="ms").strftime("%m/%d/%Y")`, with `none` for
a raised conversion error (value out of the representable range). -/
def msToDateStr (ms : Int) : Option String :=
  if nsInRange ms then
    let c := civilFromDays (Int.fdiv ms 86400000)
    some (pad2 c.2.1 ++ "/" ++ pad2 c.2.2 ++ "/" ++ pad4 c.1)
  else none

/-- The per-feature record construction of `baixar_tabela_oficial`
(source lines 68-87): `StartDate` is converted only when truthy
(present and non-zero); a conversion failure falls back to `""`;
`County` and `BurnBan` are stringified (default `""`) and stripped. -/
def buildRecord (a : Attributes) : CountyRecord :=
  let startDate : String :=
    match a.startDate with
    | some v => if v ≠ 0 then (msToDateStr v).getD "" else ""
    | none => ""
  { county := pyStrip (a.county.getD "")
    burnBan := pyStrip (a.burnBan.getD "")
    date := startDate
    countyId := a.countyId.getD "" }

example : msToDateStr 1709251200000 = some "03/01/2024" := by decide
example : msToDateStr 0 = some "01/01/1970" := by decide

/-! ### The persisted CSV file

`df.to_csv(CSV_FILE_PATH, sep=";", index=False, encoding="utf-8")` writes a
header row `County;Burn Ban;Date;CountyID` and one row per record, fields
separated by `;`, rows terminated by a newline; a field containing the
separator, a double quote, or a line break is wrapped in double quotes with
inner quotes doubled (`csv.QUOTE_MINIMAL`).  `pd.read_csv(..., sep=";")`
inverts this and maps every field matching one of pandas' default NA tokens
(in particular the empty field) to `NaN`. -/

/-- The double-quote character. -/
def dq : Char := '\x22'

/-- The field separator passed as `sep=";"`. -/
def csvSep : Char := ';'

/-- Does `to_csv` need to quote this field? -/
def needsQuote (f : String) : Bool :=
  f.data.any (fun c => c = csvSep || c = dq || c = '\n' || c = '\r')

/-- Double every quote character (the inside of a quoted CSV field). -/
def escInner : List Char → List Char
  | [] => []
  | c :: cs => if c = dq then dq :: dq :: escInner cs else c :: escInner cs

/-- Encode one CSV field as `to_csv` writes it. -/
def encField (f : String) : List Char :=
  if needsQuote f then dq :: (escInner f.data ++ [dq]) else f.data

/-- Join encoded fields with a separator character. -/
def joinSep (d : Char) : List (List Char) → List Char
  | [] => []
  | [f] => f
  | f :: g :: rest => f ++ d :: joinSep d (g :: rest)

/-- The header written by `to_csv` for `DataFrame(records)`: the dict-key
order of source lines 82-87. -/
def headerFields : List String := ["County", "Burn Ban", "Date", "CountyID"]

/-- The four fields of one data row, in column order. -/
def recordFields (r : CountyRecord) : List String :=
  [r.county, r.burnBan, r.date, r.countyId]

/-- One encoded CSV line including its terminating newline. -/
def encLine (fields : List String) : List Char :=
  joinSep csvSep (fields.map encField) ++ ['\n']

/-- The full text `to_csv` writes for the records of a snapshot. -/
def writeCsv (recs : List CountyRecord) : String :=
  String.mk (encLine headerFields ++ (recs.map (fun r => encLine (recordFields r))).flatten)

/-- Split a character stream at every unquoted occurrence of `d`,
toggling an in-quotes flag at each double quote (quote characters are
kept; they are stripped later by `decodeField`). -/
def splitOnUnquoted (d : Char) : List Char → Bool → List Char → List (List Char) → List (List Char)
  | [], _, cur, acc => (cur.reverse :: acc).reverse
  | c :: cs, inQ, cur, acc =>
    if c = d && !inQ then splitOnUnquoted d cs false [] (cur.reverse :: acc)
    else if c = dq then splitOnUnquoted d cs (!inQ) (c :: cur) acc
    else splitOnUnquoted d cs inQ (c :: cur) acc

/-- Decode the body of a quoted field (after its opening quote): doubled
quotes become literal quotes, a lone quote closes the field.  `none` for a
malformed (unterminated) field. -/
def decodeQuoted : List Char → Option (List Char)
  | [] => none
  | [c] => if c = dq then some [] else none
  | c :: c2 :: cs =>
    if c = dq then
      if c2 = dq then (decodeQuoted cs).map (fun r => dq :: r)
      else none
    else (decodeQuoted (c2 :: cs)).map (fun r => c :: r)

/-- Decode one raw field: strip minimal quoting if present. -/
def decodeField (f : List Char) : Option (List Char) :=
  match f with
  | [] => some []
  | c :: cs => if c = dq then decodeQuoted cs else some (c :: cs)

/-- pandas' default `na_values` tokens: a decoded field equal to one of
these becomes `NaN`. -/
def naValues : List String :=
  ["", "#N/A", "#N/A N/A", "#NA", "-1.#IND", "-1.#QNAN", "-NaN", "-nan",
   "1.#IND", "1.#QNAN", "<NA>", "N/A", "NA", "NULL", "NaN", "None",
   "n/a", "nan", "null"]

/-- NA filtering of one decoded field. -/
def toCell (s : String) : Cell :=
  if s ∈ naValues then none else some s

/-- One parsed row of the DataFrame `pd.read_csv` returns, restricted to
the four columns the module uses. -/
structure DfRow where
  county : Cell
  burnBan : Cell
  date : Cell
  countyId : Cell
  deriving Repr, DecidableEq

/-- Exceptions of the modelled Python code. -/
inductive PyErr where
  /-- `AttributeError`, e.g. `.upper()` on a float `NaN` cell. -/
  | attributeError
  /-- `pandas.errors.ParserError` and kin while reading the CSV. -/
  | parseError
  /-- `KeyError`: a column name missing from the DataFrame. -/
  | keyError
  /-- `FileNotFoundError`: the CSV file does not exist. -/
  | fileNotFound
  deriving Repr, DecidableEq

instance {ε α : Type} [DecidableEq ε] [DecidableEq α] : DecidableEq (Except ε α) := fun a b =>
  match a, b with
  | .ok x, .ok y => if h : x = y then .isTrue (by rw [h]) else .isFalse (by simpa using h)
  | .error x, .error y => if h : x = y then .isTrue (by rw [h]) else .isFalse (by simpa using h)
  | .ok _, .error _ => .isFalse (by simp)
  | .error _, .ok _ => .isFalse (by simp)

/-- Decode a list of raw fields, failing if any is malformed. -/
def decodeFieldsAll : List (List Char) → Option (List String)
  | [] => some []
  | f :: fs =>
    match decodeField f, decodeFieldsAll fs with
    | some c, some rest => some (String.mk c :: rest)
    | _, _ => none

/-- Split one raw CSV line into decoded fields. -/
def parseLine (line : List Char) : Option (List String) :=
  decodeFieldsAll (splitOnUnquoted csvSep line false [] [])

/-- Interpret the four fields of a data row, applying NA filtering. -/
def rowToDfRow (fs : List String) : Option DfRow :=
  match fs with
  | [c, b, d, i] => some ⟨toCell c, toCell b, toCell d, toCell i⟩
  | _ => none

/-- Parse every data line of the file into a `DfRow`. -/
def parseRowsAll : List (List Char) → Option (List DfRow)
  | [] => some []
  | l :: ls =>
    match (parseLine l).bind rowToDfRow, parseRowsAll ls with
    | some r, some rest => some (r :: rest)
    | _, _ => none

/-- `pd.read_csv(CSV_FILE_PATH, sep=";")` followed by the column accesses
of `verificar_condado_burnban`: parse the text into rows (skipping blank
lines), check the header carries the four expected column names, and
NA-filter every cell. -/
def readCsvChecked (text : String) : Except PyErr (List DfRow) :=
  match (splitOnUnquoted '\n' text.data false [] []).filter (fun l => l ≠ []) with
  | [] => .error .parseError
  | hdr :: rest =>
    if parseLine hdr = some headerFields then
      match parseRowsAll rest with
      | some rows => .ok rows
      | none => .error .parseError
    else .error .keyError

/-- The in-quotes flag after scanning a character list (the quote state
`splitOnUnquoted` threads). -/
def scanQ : List Char → Bool → Bool
  | [], b => b
  | c :: cs, b => scanQ cs (if c = dq then !b else b)

/-- No unquoted occurrence of the delimiter `d` anywhere in the list,
starting from quote state `b` (so `splitOnUnquoted d` never splits
inside it). -/
def cleanFor (d : Char) : List Char → Bool → Bool
  | [], _ => true
  | c :: cs, b =>
    if c = d && !b then false else cleanFor d cs (if c = dq then !b else b)

example :
    readCsvChecked (writeCsv [⟨"Travis", "YES", "03/01/2024", "227"⟩]) =
      .ok [⟨some "Travis", some "YES", some "03/01/2024", some "227"⟩] := by
  decide

example :
    readCsvChecked (writeCsv [⟨"A;B", "with \x22q\x22", "", "x"⟩]) =
      .ok [⟨some "A;B", some "with \x22q\x22", none, some "x"⟩] := by
  decide

/-! ### The dataset cache: `baixar_tabela_oficial` (source lines 47-93) -/

/-- The module-level mutable state: `_cache["last_download"]` (default 0)
and the contents of `CSV_FILE_PATH` (`none` when the file does not
exist). -/
structure CacheState where
  last_download : Int
  file : Option String
  deriving Repr, DecidableEq

/-- Result of the `df.to_csv(...)` call: success, or a raised exception
with message `msg` leaving whatever partial contents `residue` on disk. -/
inductive PersistOutcome where
  | ok
  | fail (msg : String) (residue : Option String)
  deriving Repr, DecidableEq

/-- The external world of one refresh attempt: `fetch` is the combined
result of `requests.get` + `raise_for_status` + `r.json()` +
`data.get("features", [])` (`.error msg` when any of them raises, with
`str(e) = msg`), and `persist` the result of `df.to_csv`. -/
structure FetchEnv where
  fetch : Except String (List Attributes)
  persist : PersistOutcome
  deriving Repr, DecidableEq

/-- What one call to `baixar_tabela_oficial` did: its return (`.error m`
is a raised exception with `str(e) = m`), the module state it leaves, and
whether it issued the external `requests.get`. -/
structure RefreshResult where
  result : Except String Unit
  state : CacheState
  fetched : Bool
  deriving Repr, DecidableEq

/-- `str(RuntimeError("MapServer API returned no data."))`. -/
def noDataMsg : String := "MapServer API returned no data."

/-- `baixar_tabela_oficial` (source lines 47-93), for TTL `ttl`
(`CACHE_TTL`), wall clock `now` (`time.time()`), external world `env`,
and module state `s`:
cache hit when `force` is false, `now - last < ttl` and the file exists;
otherwise fetch, fail on a fetch error or an empty `features` list with
the state untouched, else build the records, write the CSV and only then
set `last_download = now`. -/
def baixar_tabela_oficial (ttl : Int) (force : Bool) (now : Int)
    (env : FetchEnv) (s : CacheState) : RefreshResult :=
  if force = false ∧ now - s.last_download < ttl ∧ s.file.isSome = true then
    ⟨.ok (), s, false⟩
  else
    match env.fetch with
    | .error m => ⟨.error m, s, true⟩
    | .ok feats =>
      if feats = [] then ⟨.error noDataMsg, s, true⟩
      else
        let text := writeCsv (feats.map buildRecord)
        match env.persist with
        | .ok => ⟨.ok (), ⟨now, some text⟩, true⟩
        | .fail m residue => ⟨.error m, ⟨s.last_download, residue⟩, true⟩

/-! ### The lookup: `verificar_condado_burnban` (source lines 143-165) -/

/-- The dict returned by `verificar_condado_burnban`; `start_date` is a
pandas cell (`none` = `NaN`) since it is copied from the DataFrame. -/
structure Outcome where
  can_burn : Option Bool
  start_date : Cell
  error : String
  deriving Repr, DecidableEq

/-- `df["Normalized_County"]` for one cell:
`.str.upper().str.strip()` maps `NaN` to `NaN`. -/
def normCell (c : Cell) : Cell :=
  c.map (fun s => pyStrip (pyUpper s))

/-- The row filter `df["Normalized_County"] == target_county.upper()`
(a `NaN` county compares unequal). -/
def countyMatches (target : String) (r : DfRow) : Bool :=
  normCell r.county = some (pyUpper target)

/-- Source lines 150-165: select the matching rows, keep the first, map
its status.  A `NaN` status cell makes `.upper()` raise
`AttributeError`. -/
def lookupStatus (target : String) (rows : List DfRow) : Except PyErr Outcome :=
  match rows.filter (countyMatches target) with
  | [] => .ok ⟨none, some "", "County not found"⟩
  | r :: _ =>
    match r.burnBan with
    | none => .error .attributeError
    | some st =>
      let status := pyUpper st
      if status = "YES" then .ok ⟨some false, r.date, ""⟩
      else if status = "NO" then .ok ⟨some true, some "", ""⟩
      else .ok ⟨none, some "", "Unexpected status"⟩

/-- `verificar_condado_burnban` (source lines 143-165): the refresh runs
inside `try/except` (its exception becomes the outcome's `error` text);
the CSV read and the status mapping run outside any handler, so their
exceptions leave the function. -/
def verificar_condado_burnban (ttl now : Int) (env : FetchEnv)
    (target : String) (s : CacheState) : Except PyErr Outcome × CacheState :=
  let b := baixar_tabela_oficial ttl false now env s
  match b.result with
  | .error m => (.ok ⟨none, some "", m⟩, b.state)
  | .ok _ =>
    match b.state.file with
    | none => (.error .fileNotFound, b.state)
    | some text =>
      match readCsvChecked text with
      | .error e => (.error e, b.state)
      | .ok rows => (lookupStatus target rows, b.state)

/-! ### ZIP to county: `zip_to_county` (source lines 107-137) -/

/-- The location object `geolocator.geocode` returns; the coordinate
values only flow into the FCC request URL, so their text is all the model
carries. -/
structure Location where
  latitude : String
  longitude : String
  deriving Repr, DecidableEq

/-- The decoded FCC census-block response: `fcc_data.get("County", {}).get("name")`. -/
structure FccResponse where
  countyName : Option String
  deriving Repr, DecidableEq

/-- The external world of one `zip_to_county` call: the geocoder call
(`.error` = raised, `.ok none` = no location found) and the FCC GET +
`.json()` decode. -/
structure GeoEnv where
  geocode : Except String (Option Location)
  fccGet : Except String FccResponse
  deriving Repr, DecidableEq

/-- The body of `zip_to_county`'s `try` block (source lines 109-133):
each raised external call re-raises, a missing location or county is
`None`, and a found county has every `"County"` substring removed and is
stripped. -/
def zip_to_county_body (e : GeoEnv) : Except String (Option String) :=
  match e.geocode with
  | .error m => .error m
  | .ok none => .ok none
  | .ok (some _) =>
    match e.fccGet with
    | .error m => .error m
    | .ok fcc =>
      match fcc.countyName with
      | some county =>
        if county ≠ "" then .ok (some (pyStrip (pyReplace county "County" "")))
        else .ok none
      | none => .ok none

/-- `zip_to_county` (source lines 107-137): the whole body runs inside
`try/except Exception`, and the handler returns `None`; the `Except`
result records whether an exception escapes the call (it never does). -/
def zip_to_county (e : GeoEnv) : Except String (Option String) :=
  match zip_to_county_body e with
  | .ok v => .ok v
  | .error _ => .ok none

/-- The value `zip_to_county` hands to its caller. -/
def zip_to_county_val (e : GeoEnv) : Option String :=
  match zip_to_county e with
  | .ok v => v
  | .error _ => none

/-! ### The entrypoint: `main` (source lines 182-224) and
`enviar_para_power_automate` (source lines 171-176) -/

/-- The JSON body posted to Power Automate (source lines 202-210). -/
structure Payload where
  phone_number : String
  zipcode : String
  county : String
  burn_ban : Option Bool
  startDateBurn : Cell
  timestamp : Int
  source : String
  deriving Repr, DecidableEq

/-- What a `main` call produced: the TwiML message text and the payload
handed to `enviar_para_power_automate` (`none` when that call was never
reached). -/
structure MainOut where
  resp : String
  payload : Option Payload
  deriving Repr, DecidableEq

/-- The external world of one `main` call. -/
structure MainEnv where
  geo : GeoEnv
  ttl : Int
  now : Int
  fetchEnv : FetchEnv
  forward : Except String Unit
  deriving Repr, DecidableEq

/-- `"".join(filter(str.isdigit, user_msg))`. -/
def filterDigits (s : String) : String :=
  String.mk (s.data.filter Char.isDigit)

/-- Python `f"...{x}..."` of a pandas cell: `NaN` prints as `nan`. -/
def cellStr : Cell → String
  | some s => s
  | none => "nan"

/-- Source line 191. -/
def invalidZipMsg : String := "Please send a valid U.S. ZIP Code (example: 78701)."

/-- Source line 197. -/
def noCountyMsg : String := "Could not determine the county for this ZIP Code."

/-- `enviar_para_power_automate` (source lines 171-176): the POST runs
inside `try/except`, so its result is discarded entirely. -/
def enviar_para_power_automate (forward : Except String Unit) : Unit :=
  match forward with
  | .ok _ => ()
  | .error _ => ()

/-- The payload dict built at source lines 202-210. -/
def mkPayload (fromNumber zipcode county : String) (result : Outcome)
    (ts : Int) : Payload :=
  ⟨fromNumber, zipcode, county, result.can_burn, result.start_date, ts,
   "twilio_sms"⟩

/-- The reply text chosen at source lines 212-221. -/
def replyText (county : String) (result : Outcome) : String :=
  match result.can_burn with
  | some true =>
    "County: " ++ county ++ "\nThis location is not under a burn ban."
  | some false =>
    "County: " ++ county ++ "\nThis location is under a burn ban.\nBan started on "
      ++ cellStr result.start_date ++ "."
  | none =>
    "County: " ++ county ++ "\nUnable to determine burn status."

/-- `main` (source lines 182-224): digits-only ZIP validation, county
resolution (`None` and the empty string are both falsy), burn-ban lookup
(whose uncaught exceptions propagate out of `main`), forwarding of the
result payload (recorded in `MainOut.payload`; the forwarding result
`env.forward` is swallowed by `enviar_para_power_automate` and affects
nothing), and the reply text. -/
def main (body fromNumber : String) (env : MainEnv) (s : CacheState) :
    Except PyErr MainOut × CacheState :=
  if (filterDigits (pyStrip body)).length ≠ 5 then (.ok ⟨invalidZipMsg, none⟩, s)
  else
    match zip_to_county_val env.geo with
    | none => (.ok ⟨noCountyMsg, none⟩, s)
    | some county =>
      if county = "" then (.ok ⟨noCountyMsg, none⟩, s)
      else
        match verificar_condado_burnban env.ttl env.now env.fetchEnv county s with
        | (.error e, s1) => (.error e, s1)
        | (.ok result, s1) =>
          (.ok ⟨replyText county result,
            some (mkPayload fromNumber (filterDigits (pyStrip body)) county result env.now)⟩,
           s1)

/-! ## Claims -/

/-- C10: during refresh, a feature whose `StartDate` attribute is the
integer 0 is treated the same as an absent `StartDate` (the record's date
field is the empty string, not `"01/01/1970"`); only a present, non-zero
millisecond value is converted, and a conversion failure also falls back
to the empty string. -/
theorem C10_startDate_zero_is_absent (a : Attributes) :
    (a.startDate = some 0 →
      buildRecord a = buildRecord { a with startDate := none } ∧
        (buildRecord a).date = "") ∧
    (∀ v : Int, a.startDate = some v → v ≠ 0 →
      (buildRecord a).date = (msToDateStr v).getD "") ∧
    (∀ v : Int, a.startDate = some v → v ≠ 0 → msToDateStr v = none →
      (buildRecord a).date = "") := by
  refine ⟨fun h0 => ?_, fun v hv hv0 => ?_, fun v hv hv0 hconv => ?_⟩
  · constructor <;> simp [buildRecord, h0]
  · simp [buildRecord, hv, hv0]
  · simp [buildRecord, hv, hv0, hconv]

/-- Witness for C10 at a concrete feature: `StartDate = 0` yields the
same record as an absent `StartDate`, and its date field is empty. -/
theorem C10_startDate_zero_is_absent_witness :
    buildRecord ⟨some "Travis", some "YES", some 0, some "227"⟩ =
        buildRecord ⟨some "Travis", some "YES", none, some "227"⟩ ∧
      (buildRecord ⟨some "Travis", some "YES", some 0, some "227"⟩).date = "" :=
  (C10_startDate_zero_is_absent ⟨some "Travis", some "YES", some 0, some "227"⟩).1 rfl

/-- C9: `zip_to_county` never lets an exception escape: it always returns
a value (`.ok`), and every stage failure — a raised geocoder call, a
raised FCC request/decode, or a not-found location — becomes the `None`
result. -/
theorem C9_zip_to_county_total (e : GeoEnv) :
    (∃ v, zip_to_county e = .ok v) ∧
    (∀ m, e.geocode = .error m → zip_to_county e = .ok none) ∧
    (∀ m loc, e.geocode = .ok (some loc) → e.fccGet = .error m →
      zip_to_county e = .ok none) ∧
    (e.geocode = .ok none → zip_to_county e = .ok none) := by
  refine ⟨?_, fun m hm => ?_, fun m loc hg hf => ?_, fun hg => ?_⟩
  · unfold zip_to_county
    cases zip_to_county_body e with
    | ok v => exact ⟨v, rfl⟩
    | error m => exact ⟨none, rfl⟩
  · unfold zip_to_county zip_to_county_body
    simp [hm]
  · unfold zip_to_county zip_to_county_body
    simp [hg, hf]
  · unfold zip_to_county zip_to_county_body
    simp [hg]

/-- Witness for C9 at a concrete environment: a geocoder timeout is
swallowed into `None`. -/
theorem C9_zip_to_county_total_witness :
    zip_to_county ⟨.error "timed out", .ok ⟨some "Travis"⟩⟩ = .ok none :=
  (C9_zip_to_county_total ⟨.error "timed out", .ok ⟨some "Travis"⟩⟩).2.1 "timed out" rfl

/-- Counterexample to C8 as stated: for the FCC county name
`"Countyville County"` the code returns `"ville"`, not `"Countyville"` —
`replace("County", "")` removes every occurrence of the substring, not
just a trailing word. -/
theorem C8_counterexample :
    zip_to_county ⟨.ok (some ⟨"30.1", "-97.8"⟩), .ok ⟨some "Countyville County"⟩⟩ =
        .ok (some "ville") ∧
      ("ville" : String) ≠ "Countyville" := by
  decide

/-- C8 amended: when both lookups succeed with a non-empty county name,
`zip_to_county` returns that name with every occurrence of the substring
`"County"` removed and the result trimmed (not only a trailing word). -/
theorem C8_county_suffix_removed (e : GeoEnv) (loc : Location) (c : String)
    (hg : e.geocode = .ok (some loc)) (hf : e.fccGet = .ok ⟨some c⟩)
    (hc : c ≠ "") :
    zip_to_county e = .ok (some (pyStrip (pyReplace c "County" ""))) := by
  unfold zip_to_county zip_to_county_body
  simp [hg, hf, hc]

/-- Witness for C8 amended at a concrete environment: `"Fort Bend County"`
becomes `"Fort Bend"`. -/
theorem C8_county_suffix_removed_witness :
    zip_to_county ⟨.ok (some ⟨"29.5", "-95.8"⟩), .ok ⟨some "Fort Bend County"⟩⟩ =
      .ok (some "Fort Bend") := by
  have h := C8_county_suffix_removed ⟨.ok (some ⟨"29.5", "-95.8"⟩), .ok ⟨some "Fort Bend County"⟩⟩
    ⟨"29.5", "-95.8"⟩ "Fort Bend County" rfl rfl (by decide)
  rw [h]
  decide

/-- Counterexample to C2 as stated: for a snapshot row with county
`"Travis"`, `lookup(" Travis ")` returns County-not-found while
`lookup("travis")` returns the banned verdict — the target county is
uppercased but never trimmed, so the three calls are not all identical. -/
theorem C2_counterexample :
    lookupStatus " Travis " [⟨some "Travis", some "YES", some "01/02/2024", some "X1"⟩] =
        .ok ⟨none, some "", "County not found"⟩ ∧
      lookupStatus "travis" [⟨some "Travis", some "YES", some "01/02/2024", some "X1"⟩] =
        .ok ⟨some false, some "01/02/2024", ""⟩ := by
  decide

/-- C2 amended: each record's county field is normalized with uppercase
and trim, but the target is only uppercased (not trimmed); hence lookups
whose targets agree after uppercasing return identical Outcomes
(`lookup("travis") = lookup("TRAVIS")`), while a whitespace-padded target
is compared padded. -/
theorem C2_target_uppercased_not_trimmed (t1 t2 : String) (rows : List DfRow)
    (h : pyUpper t1 = pyUpper t2) :
    lookupStatus t1 rows = lookupStatus t2 rows := by
  have hm : countyMatches t1 = countyMatches t2 := by
    funext r
    unfold countyMatches
    rw [h]
  unfold lookupStatus
  rw [hm]

/-- Exhaustive case analysis of one `baixar_tabela_oficial` call: cache
hit, fetch error, empty feature list, successful persist, failed
persist. -/
theorem refresh_cases (ttl : Int) (force : Bool) (now : Int)
    (env : FetchEnv) (s : CacheState) :
    (baixar_tabela_oficial ttl force now env s = ⟨.ok (), s, false⟩ ∧
      (force = false ∧ now - s.last_download < ttl ∧ s.file.isSome = true)) ∨
    (¬(force = false ∧ now - s.last_download < ttl ∧ s.file.isSome = true) ∧
      ((∃ m, env.fetch = .error m ∧
          baixar_tabela_oficial ttl force now env s = ⟨.error m, s, true⟩) ∨
        (env.fetch = .ok [] ∧
          baixar_tabela_oficial ttl force now env s = ⟨.error noDataMsg, s, true⟩) ∨
        (∃ feats, env.fetch = .ok feats ∧ feats ≠ [] ∧
          ((env.persist = .ok ∧
              baixar_tabela_oficial ttl force now env s =
                ⟨.ok (), ⟨now, some (writeCsv (feats.map buildRecord))⟩, true⟩) ∨
            (∃ m residue, env.persist = .fail m residue ∧
              baixar_tabela_oficial ttl force now env s =
                ⟨.error m, ⟨s.last_download, residue⟩, true⟩))))) := by
  by_cases hguard : force = false ∧ now - s.last_download < ttl ∧ s.file.isSome = true
  · left
    constructor
    · unfold baixar_tabela_oficial
      rw [if_pos hguard]
    · exact hguard
  · right
    refine ⟨hguard, ?_⟩
    have hb : baixar_tabela_oficial ttl force now env s =
        (match env.fetch with
          | .error m => ⟨.error m, s, true⟩
          | .ok feats =>
            if feats = [] then ⟨.error noDataMsg, s, true⟩
            else
              let text := writeCsv (feats.map buildRecord)
              match env.persist with
              | .ok => ⟨.ok (), ⟨now, some text⟩, true⟩
              | .fail m residue => ⟨.error m, ⟨s.last_download, residue⟩, true⟩) := by
      unfold baixar_tabela_oficial
      rw [if_neg hguard]
    cases hfe : env.fetch with
    | error m =>
      left
      exact ⟨m, rfl, by rw [hb, hfe]⟩
    | ok feats =>
      right
      by_cases hempty : feats = []
      · left
        subst hempty
        refine ⟨rfl, ?_⟩
        rw [hb, hfe]
        simp
      · right
        refine ⟨feats, rfl, hempty, ?_⟩
        cases hp : env.persist with
        | ok =>
          left
          refine ⟨rfl, ?_⟩
          rw [hb, hfe, hp]
          simp [hempty]
        | fail m residue =>
          right
          refine ⟨m, residue, rfl, ?_⟩
          rw [hb, hfe, hp]
          simp [hempty]

/-- Witness for C2 amended at a concrete snapshot:
`lookup("travis") = lookup("TRAVIS")`. -/
theorem C2_target_uppercased_not_trimmed_witness :
    lookupStatus "travis" [⟨some "Travis", some "YES", some "01/02/2024", some "X1"⟩] =
      lookupStatus "TRAVIS" [⟨some "Travis", some "YES", some "01/02/2024", some "X1"⟩] :=
  C2_target_uppercased_not_trimmed "travis" "TRAVIS"
    [⟨some "Travis", some "YES", some "01/02/2024", some "X1"⟩] (by decide)

/-- C4: TTL idempotence — after a refresh at `t1` that issued the
external fetch and succeeded, a second `baixar_tabela_oficial` call at
`t2` with `t2 - t1 < ttl` issues no fetch (whatever its network would
have answered), returns success, leaves the state unchanged, and the two
calls issue exactly one external fetch in total. -/
theorem C4_ttl_idempotence (ttl t1 t2 : Int) (e1 e2 : FetchEnv) (s0 : CacheState)
    (_h12 : t1 < t2) (httl : t2 - t1 < ttl)
    (hfetch : (baixar_tabela_oficial ttl false t1 e1 s0).fetched = true)
    (hok : (baixar_tabela_oficial ttl false t1 e1 s0).result = .ok ()) :
    (baixar_tabela_oficial ttl false t2 e2
        (baixar_tabela_oficial ttl false t1 e1 s0).state).fetched = false ∧
      (baixar_tabela_oficial ttl false t2 e2
          (baixar_tabela_oficial ttl false t1 e1 s0).state).result = .ok () ∧
      (baixar_tabela_oficial ttl false t2 e2
          (baixar_tabela_oficial ttl false t1 e1 s0).state).state =
        (baixar_tabela_oficial ttl false t1 e1 s0).state ∧
      ((if (baixar_tabela_oficial ttl false t1 e1 s0).fetched then 1 else 0) +
          (if (baixar_tabela_oficial ttl false t2 e2
              (baixar_tabela_oficial ttl false t1 e1 s0).state).fetched then 1 else 0)
        = 1) := by
  have hstate : ∃ text,
      (baixar_tabela_oficial ttl false t1 e1 s0).state = ⟨t1, some text⟩ := by
    rcases refresh_cases ttl false t1 e1 s0 with ⟨hb, -⟩ |
      ⟨-, ⟨m, -, hb⟩ | ⟨-, hb⟩ | ⟨feats, -, -, ⟨-, hb⟩ | ⟨m, residue, -, hb⟩⟩⟩
    · rw [hb] at hfetch
      exact absurd hfetch (by simp)
    · rw [hb] at hok
      exact absurd hok (by simp)
    · rw [hb] at hok
      exact absurd hok (by simp)
    · rw [hb]
      exact ⟨writeCsv (feats.map buildRecord), rfl⟩
    · rw [hb] at hok
      exact absurd hok (by simp)
  obtain ⟨text, htext⟩ := hstate
  have hhit : baixar_tabela_oficial ttl false t2 e2 ⟨t1, some text⟩ =
      ⟨.ok (), ⟨t1, some text⟩, false⟩ := by
    unfold baixar_tabela_oficial
    rw [if_pos ⟨rfl, by simpa using httl, rfl⟩]
  rw [htext, hhit, hfetch]
  simp

/-- Witness for C4 at concrete times and environments: a cold first
call at `t1 = 100` fetches; the call at `t2 = 200` (TTL 3600) succeeds
with no fetch even though its network would fail. -/
theorem C4_ttl_idempotence_witness :
    (baixar_tabela_oficial 3600 false 200 ⟨.error "net down", .ok⟩
        (baixar_tabela_oficial 3600 false 100
          ⟨.ok [⟨some "Travis", some "YES", none, some "227"⟩], .ok⟩ ⟨0, none⟩).state).fetched
        = false ∧
      (baixar_tabela_oficial 3600 false 200 ⟨.error "net down", .ok⟩
          (baixar_tabela_oficial 3600 false 100
            ⟨.ok [⟨some "Travis", some "YES", none, some "227"⟩], .ok⟩ ⟨0, none⟩).state).result
        = .ok () ∧
      (baixar_tabela_oficial 3600 false 200 ⟨.error "net down", .ok⟩
          (baixar_tabela_oficial 3600 false 100
            ⟨.ok [⟨some "Travis", some "YES", none, some "227"⟩], .ok⟩ ⟨0, none⟩).state).state
        = (baixar_tabela_oficial 3600 false 100
            ⟨.ok [⟨some "Travis", some "YES", none, some "227"⟩], .ok⟩ ⟨0, none⟩).state ∧
      ((if (baixar_tabela_oficial 3600 false 100
              ⟨.ok [⟨some "Travis", some "YES", none, some "227"⟩], .ok⟩ ⟨0, none⟩).fetched
            then 1 else 0) +
          (if (baixar_tabela_oficial 3600 false 200 ⟨.error "net down", .ok⟩
              (baixar_tabela_oficial 3600 false 100
                ⟨.ok [⟨some "Travis", some "YES", none, some "227"⟩], .ok⟩ ⟨0, none⟩).state).fetched
            then 1 else 0)
        = 1) :=
  C4_ttl_idempotence 3600 100 200 ⟨.ok [⟨some "Travis", some "YES", none, some "227"⟩], .ok⟩
    ⟨.error "net down", .ok⟩ ⟨0, none⟩ (by decide) (by decide) (by decide) (by decide)

/-- C5: refresh atomicity — a fetch error or an empty feature list (on a
call that actually fetched) leaves the whole state (timestamp and file)
unchanged; any failing call leaves `last_download` unchanged; and
`last_download` moves only when fetch, parse and persistence all
succeeded, in which case it becomes `now`. -/
theorem C5_refresh_atomicity (ttl : Int) (force : Bool) (now : Int)
    (env : FetchEnv) (s : CacheState) :
    (∀ m, env.fetch = .error m →
      (baixar_tabela_oficial ttl force now env s).fetched = true →
      (baixar_tabela_oficial ttl force now env s).state = s ∧
        (baixar_tabela_oficial ttl force now env s).result = .error m) ∧
    (env.fetch = .ok [] →
      (baixar_tabela_oficial ttl force now env s).fetched = true →
      (baixar_tabela_oficial ttl force now env s).state = s ∧
        (baixar_tabela_oficial ttl force now env s).result = .error noDataMsg) ∧
    (∀ m, (baixar_tabela_oficial ttl force now env s).result = .error m →
      (baixar_tabela_oficial ttl force now env s).state.last_download =
        s.last_download) ∧
    ((baixar_tabela_oficial ttl force now env s).state.last_download ≠
        s.last_download →
      (baixar_tabela_oficial ttl force now env s).result = .ok () ∧
        env.persist = .ok ∧
        (baixar_tabela_oficial ttl force now env s).state.last_download = now ∧
        ∃ feats, env.fetch = .ok feats ∧ feats ≠ []) := by
  rcases refresh_cases ttl force now env s with ⟨hb, -⟩ |
    ⟨-, ⟨m0, hfe, hb⟩ | ⟨hfe, hb⟩ | ⟨feats, hfe, hne, ⟨hp, hb⟩ | ⟨m0, residue, hp, hb⟩⟩⟩ <;>
    rw [hb] <;> rw [hb] at *
  · refine ⟨fun m hm hf => by simp at hf, fun hm hf => by simp at hf, ?_, ?_⟩
    · intro m hm
      simp at hm
    · intro hlast
      simp at hlast
  · refine ⟨fun m hm hf => ?_, fun hm hf => ?_, fun m hm => rfl, fun hlast => ?_⟩
    · rw [hfe] at hm
      cases hm
      exact ⟨rfl, rfl⟩
    · rw [hfe] at hm
      cases hm
    · exact absurd rfl hlast
  · refine ⟨fun m hm hf => ?_, fun hm hf => ⟨rfl, rfl⟩, fun m hm => rfl, fun hlast => ?_⟩
    · rw [hfe] at hm
      cases hm
    · exact absurd rfl hlast
  · refine ⟨fun m hm hf => ?_, fun hm hf => ?_, fun m hm => by simp at hm, fun hlast => ?_⟩
    · rw [hfe] at hm
      cases hm
    · rw [hfe] at hm
      cases hm
      exact absurd rfl hne
    · exact ⟨rfl, hp, rfl, feats, hfe, hne⟩
  · refine ⟨fun m hm hf => ?_, fun hm hf => ?_, fun m hm => rfl, fun hlast => ?_⟩
    · rw [hfe] at hm
      cases hm
    · rw [hfe] at hm
      cases hm
      exact absurd rfl hne
    · exact absurd rfl hlast

/-- Witness for C5 at a concrete failing refresh: a raised fetch leaves
the state exactly as it was and re-raises the message. -/
theorem C5_refresh_atomicity_witness :
    (baixar_tabela_oficial 3600 false 100 ⟨.error "connection reset", .ok⟩
        ⟨0, none⟩).state = ⟨0, none⟩ ∧
      (baixar_tabela_oficial 3600 false 100 ⟨.error "connection reset", .ok⟩
          ⟨0, none⟩).result = .error "connection reset" :=
  (C5_refresh_atomicity 3600 false 100 ⟨.error "connection reset", .ok⟩ ⟨0, none⟩).1
    "connection reset" rfl (by decide)

/-- Counterexample to C3 as stated: a failure while reading the
persisted snapshot back does escape as a raised fault.  Concretely, with
a dataset feature for `"Travis"` carrying no `BurnBan` attribute, the
refresh succeeds and persists the row `Travis;;;XB`; `pd.read_csv` reads
the empty status field back as `NaN`, `.upper()` raises
`AttributeError`, and the exception propagates out of `main` — no
Outcome is returned. -/
theorem C3_counterexample :
    (main "78701" "+15550100" ⟨⟨.ok (some ⟨"30.27", "-97.74"⟩), .ok ⟨some "Travis County"⟩⟩,
        3600, 1000, ⟨.ok [⟨some "Travis", none, none, some "XB"⟩], .ok⟩, .ok ()⟩
        ⟨0, none⟩).1 = .error .attributeError := by
  decide

/-- C3 amended: failures of the dataset-refresh stage are caught inside
`verificar_condado_burnban` and become a definite unknown Outcome
carrying the error text (failures after the refresh — reading the
snapshot back, mapping a missing status — are not caught and escape). -/
theorem C3_refresh_failure_contained (ttl now : Int) (env : FetchEnv)
    (target : String) (s : CacheState) (m : String)
    (h : (baixar_tabela_oficial ttl false now env s).result = .error m) :
    (verificar_condado_burnban ttl now env target s).1 =
      .ok ⟨none, some "", m⟩ := by
  unfold verificar_condado_burnban
  simp only [h]

/-- Witness for C3 amended at a concrete failing refresh: the raised
fetch error surfaces as the Outcome's error text. -/
theorem C3_refresh_failure_contained_witness :
    (verificar_condado_burnban 3600 10 ⟨.error "boom", .ok⟩ "Travis" ⟨0, none⟩).1 =
      .ok ⟨none, some "", "boom"⟩ :=
  C3_refresh_failure_contained 3600 10 ⟨.error "boom", .ok⟩ "Travis" ⟨0, none⟩ "boom"
    (by decide)

/-- Counterexample to C1 as stated: a record whose status token is the
empty string does not yield the unknown/`"Unexpected status"` Outcome.
The feature's absent `BurnBan` is stringified and stripped to `""` (shown
by the `buildRecord` conjunct), persisted as an empty CSV field, read
back as `NaN`, and `verificar_condado_burnban` raises `AttributeError`
instead of returning any Outcome. -/
theorem C1_counterexample :
    (verificar_condado_burnban 3600 1000
        ⟨.ok [⟨some "Travis", none, none, some "XA"⟩], .ok⟩ "Travis" ⟨0, none⟩).1 =
        .error .attributeError ∧
      buildRecord ⟨some "Travis", none, none, some "XA"⟩ = ⟨"Travis", "", "", "XA"⟩ := by
  decide

/-- C1 amended: with no matching record the lookup returns unknown with
error `"County not found"`; on the first matching record, an uppercased
status `"YES"` yields the banned verdict with `startDate` copied verbatim
from the record and an empty error, `"NO"` yields the allowed verdict
with `startDate` empty regardless of the record's date field, and any
other present status token yields unknown with error
`"Unexpected status"` — while a missing (`NaN`) status, the form an
empty persisted token takes after `read_csv`, raises `AttributeError`. -/
theorem C1_status_mapping (target : String) (rows : List DfRow) :
    (rows.filter (countyMatches target) = [] →
      lookupStatus target rows = .ok ⟨none, some "", "County not found"⟩) ∧
    (∀ r rest, rows.filter (countyMatches target) = r :: rest →
      (∀ st, r.burnBan = some st → pyUpper st = "YES" →
        lookupStatus target rows = .ok ⟨some false, r.date, ""⟩) ∧
      (∀ st, r.burnBan = some st → pyUpper st = "NO" →
        lookupStatus target rows = .ok ⟨some true, some "", ""⟩) ∧
      (∀ st, r.burnBan = some st → pyUpper st ≠ "YES" → pyUpper st ≠ "NO" →
        lookupStatus target rows = .ok ⟨none, some "", "Unexpected status"⟩) ∧
      (r.burnBan = none → lookupStatus target rows = .error .attributeError)) := by
  constructor
  · intro h
    unfold lookupStatus
    rw [h]
  · intro r rest h
    refine ⟨fun st hst hyes => ?_, fun st hst hno => ?_,
        fun st hst hy hn => ?_, fun hnan => ?_⟩ <;>
      unfold lookupStatus <;> rw [h]
    · simp [hst, hyes]
    · simp [hst, hno]
    · simp [hst, hy, hn]
    · simp [hnan]

/-- Witness for C1 amended at a concrete snapshot: the single `"Travis"`
row with status `"Yes"` (uppercased to `"YES"`) produces the banned
verdict with the record's date copied. -/
theorem C1_status_mapping_witness :
    lookupStatus "travis" [⟨some "Travis", some "Yes", some "03/01/2024", some "227"⟩] =
      .ok ⟨some false, some "03/01/2024", ""⟩ :=
  ((C1_status_mapping "travis"
        [⟨some "Travis", some "Yes", some "03/01/2024", some "227"⟩]).2
      ⟨some "Travis", some "Yes", some "03/01/2024", some "227"⟩ [] (by decide)).1
    "Yes" rfl (by decide)

/-- Counterexample to C7 as stated: on the path where the geocoding
stage fails, `main` answers the caller without ever calling
`enviar_para_power_automate` — the Outcome is not forwarded on every
path. -/
theorem C7_counterexample :
    (main "78701" "+15550100" ⟨⟨.error "geocoder timeout", .ok ⟨none⟩⟩, 3600, 0,
        ⟨.error "unused", .ok⟩, .ok ()⟩ ⟨0, none⟩).1 =
      .ok ⟨noCountyMsg, none⟩ := by
  decide

/-- C7 amended: the payload is handed to the forwarder exactly on the
paths that reach a computed Outcome — a valid 5-digit ZIP and a resolved
non-empty county (the invalid-ZIP and failed-geocoding paths return
without forwarding) — and the result of the forwarding call is swallowed:
`main` returns the same answer whatever the forwarder did. -/
theorem C7_forwarding (b fn : String) (env : MainEnv) (s : CacheState) :
    (∀ out s1, main b fn env s = (.ok out, s1) →
      (out.payload.isSome = true ↔
        ((filterDigits (pyStrip b)).length = 5 ∧
          ∃ c, zip_to_county_val env.geo = some c ∧ c ≠ ""))) ∧
    (∀ fwd : Except String Unit,
      main b fn ⟨env.geo, env.ttl, env.now, env.fetchEnv, fwd⟩ s = main b fn env s) := by
  constructor
  · intro out s1 h
    unfold main at h
    by_cases hlen : (filterDigits (pyStrip b)).length = 5
    · rw [if_neg (by simp [hlen])] at h
      cases hz : zip_to_county_val env.geo with
      | none =>
        rw [hz] at h
        cases h
        simp [hz]
      | some county =>
        rw [hz] at h
        dsimp only at h
        by_cases hc : county = ""
        · rw [if_pos hc] at h
          cases h
          simp [hz, hc]
        · rw [if_neg hc] at h
          cases hv : verificar_condado_burnban env.ttl env.now env.fetchEnv county s with
          | mk r s2 =>
            rw [hv] at h
            cases r with
            | error e => cases h
            | ok result =>
              cases h
              simp only [mkPayload, Option.isSome_some, true_iff]
              exact ⟨hlen, county, rfl, hc⟩
    · rw [if_pos hlen] at h
      cases h
      simp [hlen]
  · intro fwd
    rfl

/-- Witness for C7 amended at a concrete successful run: the returned
`MainOut` carries the forwarded payload
(and the run itself is checked by `decide`). -/
theorem C7_forwarding_witness :
    (⟨"County: Harris\nThis location is not under a burn ban.",
        some ⟨"+15550100", "77001", "Harris", some true, some "", 50, "twilio_sms"⟩⟩ :
      MainOut).payload.isSome = true :=
  ((C7_forwarding "77001" "+15550100"
        ⟨⟨.ok (some ⟨"29.76", "-95.36"⟩), .ok ⟨some "Harris County"⟩⟩, 3600, 50,
         ⟨.ok [⟨some "Harris", some "NO", none, some "H1"⟩], .ok⟩, .ok ()⟩
        ⟨0, none⟩).1
      ⟨"County: Harris\nThis location is not under a burn ban.",
        some ⟨"+15550100", "77001", "Harris", some true, some "", 50, "twilio_sms"⟩⟩
      ⟨50, some "County;Burn Ban;Date;CountyID\nHarris;NO;;H1\n"⟩ (by decide)).mpr
    ⟨by decide, "Harris", by decide, by decide⟩

/-! ### Round-trip lemmas for the persisted CSV (claim C6) -/

theorem scanQ_append (xs ys : List Char) (b : Bool) :
    scanQ (xs ++ ys) b = scanQ ys (scanQ xs b) := by
  induction xs generalizing b with
  | nil => rfl
  | cons c cs ih => simp [scanQ, ih]

theorem cleanFor_append (d : Char) (xs ys : List Char) (b : Bool) :
    cleanFor d (xs ++ ys) b =
      (cleanFor d xs b && cleanFor d ys (scanQ xs b)) := by
  induction xs generalizing b with
  | nil => rfl
  | cons c cs ih =>
    by_cases hcd : (c = d && !b) = true
    · simp [cleanFor, hcd]
    · simp only [List.cons_append, cleanFor, scanQ]
      rw [if_neg hcd, if_neg hcd]
      exact ih _

theorem splitOnUnquoted_append (d : Char) (xs : List Char) :
    ∀ (b : Bool) (ys cur : List Char) (acc : List (List Char)),
    cleanFor d xs b = true →
    splitOnUnquoted d (xs ++ ys) b cur acc =
      splitOnUnquoted d ys (scanQ xs b) (xs.reverse ++ cur) acc := by
  induction xs with
  | nil => intro b ys cur acc _; rfl
  | cons c cs ih =>
    intro b ys cur acc h
    rw [cleanFor] at h
    by_cases hcd : (c = d && !b) = true
    · rw [if_pos hcd] at h
      exact absurd h (by simp)
    · rw [if_neg hcd] at h
      show splitOnUnquoted d (c :: (cs ++ ys)) b cur acc = _
      rw [splitOnUnquoted, if_neg hcd]
      by_cases hdq : c = dq
      · rw [if_pos hdq, ih _ ys (c :: cur) acc (by simpa [hdq] using h)]
        simp [scanQ, hdq]
      · rw [if_neg hdq, ih _ ys (c :: cur) acc (by simpa [hdq] using h)]
        simp [scanQ, hdq]

theorem splitOnUnquoted_delim (d : Char) (ys cur : List Char)
    (acc : List (List Char)) :
    splitOnUnquoted d (d :: ys) false cur acc =
      splitOnUnquoted d ys false [] (cur.reverse :: acc) := by
  rw [splitOnUnquoted, if_pos (by simp)]

theorem scanQ_no_quote (l : List Char) (b : Bool) (h : ∀ c ∈ l, c ≠ dq) :
    scanQ l b = b := by
  induction l generalizing b with
  | nil => rfl
  | cons c cs ih =>
    rw [scanQ, if_neg (h c (by simp))]
    exact ih b (fun x hx => h x (by simp [hx]))

theorem cleanFor_no_delim (d : Char) (l : List Char) (b : Bool)
    (hd : ∀ c ∈ l, c ≠ d) (hq : ∀ c ∈ l, c ≠ dq) : cleanFor d l b = true := by
  induction l generalizing b with
  | nil => rfl
  | cons c cs ih =>
    rw [cleanFor, if_neg (by simp [hd c (by simp)]),
      if_neg (hq c (by simp))]
    exact ih b (fun x hx => hd x (by simp [hx])) (fun x hx => hq x (by simp [hx]))

theorem escInner_scanQ (l : List Char) : scanQ (escInner l) true = true := by
  induction l with
  | nil => rfl
  | cons c cs ih =>
    by_cases hdq : c = dq
    · simp [escInner, hdq, scanQ, ih]
    · simp [escInner, hdq, scanQ, ih]

theorem escInner_cleanFor (d : Char) (l : List Char) (hd : d ≠ dq) :
    cleanFor d (escInner l) true = true := by
  induction l with
  | nil => rfl
  | cons c cs ih =>
    by_cases hdq : c = dq
    · simp [escInner, hdq, cleanFor, Ne.symm hd, ih]
    · simp only [escInner, if_neg hdq, cleanFor, if_neg hdq]
      rw [if_neg (by simp)]
      exact ih

theorem needsQuote_spec (f : String) (hq : needsQuote f = false) :
    ∀ c ∈ f.data, c ≠ csvSep ∧ c ≠ dq ∧ c ≠ '\n' ∧ c ≠ '\r' := by
  intro c hc
  simp only [needsQuote, List.any_eq_false, Bool.or_eq_true,
    decide_eq_true_eq, not_or] at hq
  have h := hq c hc
  tauto

theorem encField_scanQ (f : String) : scanQ (encField f) false = false := by
  unfold encField
  by_cases hq : needsQuote f = true
  · rw [if_pos hq, scanQ, if_pos rfl]
    simp only [Bool.not_false]
    rw [scanQ_append, escInner_scanQ]
    rfl
  · rw [if_neg hq]
    exact scanQ_no_quote _ _ (fun c hc =>
      (needsQuote_spec f (by simpa using hq) c hc).2.1)

theorem encField_cleanFor (d : Char) (f : String) (hd : d ≠ dq)
    (hsep : d = csvSep ∨ d = '\n') : cleanFor d (encField f) false = true := by
  unfold encField
  by_cases hq : needsQuote f = true
  · rw [if_pos hq, cleanFor, if_neg (by simp [Ne.symm hd]), if_pos rfl]
    simp only [Bool.not_false]
    rw [cleanFor_append, escInner_cleanFor d _ hd, escInner_scanQ]
    rw [cleanFor, if_neg (by simp [Ne.symm hd])]
    rfl
  · rw [if_neg hq]
    refine cleanFor_no_delim d _ false (fun c hc => ?_) (fun c hc =>
      (needsQuote_spec f (by simpa using hq) c hc).2.1)
    have hs := needsQuote_spec f (by simpa using hq) c hc
    rcases hsep with h | h <;> rw [h]
    · exact hs.1
    · exact hs.2.2.1

theorem rowEnc_scanQ (fs : List String) :
    scanQ (joinSep csvSep (fs.map encField)) false = false := by
  induction fs with
  | nil => rfl
  | cons f t ih =>
    cases t with
    | nil => exact encField_scanQ f
    | cons g rest =>
      show scanQ (encField f ++ csvSep :: joinSep csvSep ((g :: rest).map encField))
          false = false
      rw [scanQ_append, encField_scanQ, scanQ, if_neg (by decide)]
      exact ih

theorem rowEnc_cleanFor (fs : List String) :
    cleanFor '\n' (joinSep csvSep (fs.map encField)) false = true := by
  induction fs with
  | nil => rfl
  | cons f t ih =>
    cases t with
    | nil => exact encField_cleanFor '\n' f (by decide) (Or.inr rfl)
    | cons g rest =>
      show cleanFor '\n'
          (encField f ++ csvSep :: joinSep csvSep ((g :: rest).map encField))
          false = true
      rw [cleanFor_append, encField_cleanFor '\n' f (by decide) (Or.inr rfl),
        encField_scanQ, cleanFor, if_neg (by decide), if_neg (by decide)]
      simpa using ih

theorem splitFields_rowEnc (fs : List String) (hne : fs ≠ []) :
    ∀ acc : List (List Char),
    splitOnUnquoted csvSep (joinSep csvSep (fs.map encField)) false [] acc =
      acc.reverse ++ fs.map encField := by
  induction fs with
  | nil => exact absurd rfl hne
  | cons f t ih =>
    intro acc
    cases t with
    | nil =>
      show splitOnUnquoted csvSep (encField f) false [] acc =
        acc.reverse ++ [encField f]
      conv_lhs => rw [← List.append_nil (encField f)]
      rw [splitOnUnquoted_append csvSep (encField f) false [] [] acc
        (encField_cleanFor csvSep f (by decide) (Or.inl rfl))]
      simp [splitOnUnquoted]
    | cons g rest =>
      show splitOnUnquoted csvSep
          (encField f ++ csvSep :: joinSep csvSep ((g :: rest).map encField))
          false [] acc =
        acc.reverse ++ (encField f :: (g :: rest).map encField)
      rw [splitOnUnquoted_append csvSep (encField f) false _ [] acc
          (encField_cleanFor csvSep f (by decide) (Or.inl rfl)),
        encField_scanQ, splitOnUnquoted_delim]
      rw [ih (List.cons_ne_nil g rest)]
      simp

theorem decodeQuoted_escInner (l : List Char) :
    decodeQuoted (escInner l ++ [dq]) = some l := by
  induction l with
  | nil => simp [escInner, decodeQuoted]
  | cons c cs ih =>
    by_cases hdq : c = dq
    · subst hdq
      show decodeQuoted (dq :: dq :: (escInner cs ++ [dq])) = _
      rw [decodeQuoted, if_pos rfl, if_pos rfl, ih]
      rfl
    · rw [escInner, if_neg hdq, List.cons_append]
      cases he : escInner cs ++ [dq] with
      | nil => exact absurd he (by simp)
      | cons y ys =>
        rw [decodeQuoted, if_neg hdq, ← he, ih]
        rfl

theorem decodeField_encField (f : String) :
    decodeField (encField f) = some f.data := by
  unfold encField
  by_cases hq : needsQuote f = true
  · rw [if_pos hq]
    show decodeField (dq :: (escInner f.data ++ [dq])) = _
    rw [decodeField, if_pos rfl]
    exact decodeQuoted_escInner f.data
  · rw [if_neg hq]
    cases hd : f.data with
    | nil => rfl
    | cons c cs =>
      have hc : c ≠ dq := by
        have := needsQuote_spec f (by simpa using hq) c (by rw [hd]; simp)
        exact this.2.1
      rw [decodeField, if_neg hc]

theorem decodeFieldsAll_encFields (fs : List String) :
    decodeFieldsAll (fs.map encField) = some fs := by
  induction fs with
  | nil => rfl
  | cons f t ih =>
    show decodeFieldsAll (encField f :: t.map encField) = _
    rw [decodeFieldsAll, decodeField_encField, ih]

theorem parseLine_rowEnc (fs : List String) (hne : fs ≠ []) :
    parseLine (joinSep csvSep (fs.map encField)) = some fs := by
  unfold parseLine
  rw [splitFields_rowEnc fs hne []]
  simpa using decodeFieldsAll_encFields fs

theorem splitLines_encLines (rows : List (List String)) :
    ∀ acc : List (List Char),
    splitOnUnquoted '\n' ((rows.map encLine).flatten) false [] acc =
      acc.reverse ++ rows.map (fun fs => joinSep csvSep (fs.map encField)) ++ [[]] := by
  induction rows with
  | nil =>
    intro acc
    simp [splitOnUnquoted]
  | cons fs rest ih =>
    intro acc
    show splitOnUnquoted '\n'
        ((joinSep csvSep (fs.map encField) ++ ['\n']) ++ (rest.map encLine).flatten)
        false [] acc = _
    rw [List.append_assoc, List.singleton_append,
      splitOnUnquoted_append '\n' _ false _ [] acc (rowEnc_cleanFor fs),
      rowEnc_scanQ, splitOnUnquoted_delim, ih]
    simp

theorem filter_ne_nil_all (l : List (List Char)) (h : ∀ x ∈ l, x ≠ []) :
    l.filter (fun x => x ≠ []) = l := by
  induction l with
  | nil => rfl
  | cons x t ih =>
    rw [List.filter_cons, if_pos (by simpa using h x (by simp))]
    rw [ih (fun y hy => h y (by simp [hy]))]

theorem joinSep_two_ne_nil (d : Char) (x y : List Char) (l : List (List Char)) :
    joinSep d (x :: y :: l) ≠ [] := by
  cases x <;> simp [joinSep]

theorem parseRowsAll_encRows (recs : List CountyRecord)
    (h : ∀ r ∈ recs, r.county ∉ naValues ∧ r.burnBan ∉ naValues ∧
      r.date ∉ naValues ∧ r.countyId ∉ naValues) :
    parseRowsAll (recs.map (fun r => joinSep csvSep ((recordFields r).map encField))) =
      some (recs.map (fun r =>
        (⟨some r.county, some r.burnBan, some r.date, some r.countyId⟩ : DfRow))) := by
  induction recs with
  | nil => rfl
  | cons r t ih =>
    rw [List.map_cons, List.map_cons, parseRowsAll,
      parseLine_rowEnc (recordFields r) (by simp [recordFields])]
    have hr := h r (by simp)
    have hrow : rowToDfRow (recordFields r) =
        some ⟨some r.county, some r.burnBan, some r.date, some r.countyId⟩ := by
      simp [recordFields, rowToDfRow, toCell, hr.1, hr.2.1, hr.2.2.1, hr.2.2.2]
    rw [show (some (recordFields r)).bind rowToDfRow = rowToDfRow (recordFields r)
        from rfl,
      hrow, ih (fun x hx => h x (by simp [hx]))]

/-- Counterexample to C6 as stated: a record whose date field is the
empty string does not survive the round trip unchanged — `to_csv` writes
an empty field and `read_csv` reads it back as a missing value (`NaN`),
not as the empty string. -/
theorem C6_counterexample :
    readCsvChecked (writeCsv [⟨"Harris", "NO", "", "ID7"⟩]) =
        .ok [⟨some "Harris", some "NO", none, some "ID7"⟩] ∧
      (none : Cell) ≠ some "" := by
  decide

/-- C6 amended: writing a snapshot to the semicolon-separated persisted
file and reading it back yields cells equal to the original fields for
every record all of whose fields avoid pandas' NA tokens (in particular
are non-empty); fields equal to an NA token — including the empty
string — are read back as missing values instead. -/
theorem C6_round_trip (recs : List CountyRecord)
    (h : ∀ r ∈ recs, r.county ∉ naValues ∧ r.burnBan ∉ naValues ∧
      r.date ∉ naValues ∧ r.countyId ∉ naValues) :
    readCsvChecked (writeCsv recs) =
      .ok (recs.map (fun r =>
        (⟨some r.county, some r.burnBan, some r.date, some r.countyId⟩ : DfRow))) := by
  have hdata : (writeCsv recs).data =
      ((headerFields :: recs.map recordFields).map encLine).flatten := by
    show encLine headerFields ++
        (recs.map (fun r => encLine (recordFields r))).flatten = _
    rw [List.map_cons, List.flatten_cons, List.map_map]
    rfl
  have hlines : (splitOnUnquoted '\n' (writeCsv recs).data false [] []).filter
      (fun l => l ≠ []) =
      joinSep csvSep (headerFields.map encField) ::
        recs.map (fun r => joinSep csvSep ((recordFields r).map encField)) := by
    rw [hdata, splitLines_encLines (headerFields :: recs.map recordFields) []]
    rw [List.reverse_nil, List.nil_append, List.map_cons, List.map_map]
    rw [List.filter_append, filter_ne_nil_all _ ?hall]
    case hall =>
      intro x hx
      rcases List.mem_cons.mp hx with hx | hx
      · rw [hx]
        decide
      · obtain ⟨r, -, hr⟩ := List.mem_map.mp hx
        rw [← hr]
        exact joinSep_two_ne_nil csvSep _ _ _
    rw [show ([[]] : List (List Char)).filter (fun l => l ≠ []) = [] from rfl,
      List.append_nil]
    rfl
  unfold readCsvChecked
  rw [hlines]
  dsimp only
  rw [if_pos (by decide), parseRowsAll_encRows recs h]

/-- Witness for C6 amended at a concrete snapshot with all fields
non-empty: the round trip reproduces every field. -/
theorem C6_round_trip_witness :
    readCsvChecked (writeCsv [⟨"Travis", "YES", "03/01/2024", "227"⟩]) =
      .ok [⟨some "Travis", some "YES", some "03/01/2024", some "227"⟩] :=
  C6_round_trip [⟨"Travis", "YES", "03/01/2024", "227"⟩] (by decide)

end BurnBan
